import Mathlib

/-!
Shallow embedding of the Doris global memory arbitrator
(`be/src/runtime/memory/global_memory_arbitrator.h`) and of the column
selector-append helper (`be/src/vec/columns/column_impl.h`), with theorems
checking the natural-language specification against them.

The arbitrator's static fields (the reserved-memory ledger, the refresh
interval growth counter, the notifier flags) together with the externally
sampled inputs (`PerfCounters::get_vm_rss()`, `MemInfo::_s_sys_mem_available`)
and the read-only `MemInfo` thresholds are gathered into one explicit state
record `ArbState`; each member function becomes a Lean function over that
record.  Machine `int64_t` values are modelled as `Int` (the quantities are
byte counts far from the 2^63 boundary and the source performs no
intentionally wrapping arithmetic).
-/

namespace DorisMem

/-- Explicit state for `GlobalMemoryArbitrator` together with the sampled
inputs and configuration thresholds it reads. Field names follow the
source. -/
structure ArbState where
  /-- Sampled `PerfCounters::get_vm_rss()`: the last resident set size sample. -/
  vm_rss : Int
  /-- Sampled `MemInfo::_s_sys_mem_available`: the last system available memory sample. -/
  sys_mem_available_sample : Int
  /-- Counter `GlobalMemoryArbitrator::refresh_interval_memory_growth`. -/
  refresh_interval_memory_growth : Int
  /-- Ledger `GlobalMemoryArbitrator::_process_reserved_memory`. -/
  _process_reserved_memory : Int
  /-- Flag `GlobalMemoryArbitrator::cache_adjust_capacity_notify`. -/
  cache_adjust_capacity_notify : Bool
  /-- Flag `GlobalMemoryArbitrator::memtable_memory_refresh_notify`. -/
  memtable_memory_refresh_notify : Bool
  /-- Threshold `MemInfo::mem_limit()` (read-only configuration). -/
  mem_limit : Int
  /-- Threshold `MemInfo::soft_mem_limit()` (read-only configuration). -/
  soft_mem_limit : Int
  /-- Threshold `MemInfo::sys_mem_available_low_water_mark()` (read-only configuration). -/
  sys_mem_available_low_water_mark : Int
  /-- Threshold `MemInfo::sys_mem_available_warning_water_mark()` (read-only configuration). -/
  sys_mem_available_warning_water_mark : Int
deriving DecidableEq, Repr

/-- Accessor `GlobalMemoryArbitrator::process_reserved_memory()`: relaxed load of the
reserved-memory ledger. -/
def process_reserved_memory (s : ArbState) : Int :=
  s._process_reserved_memory

/-- Estimator `GlobalMemoryArbitrator::process_memory_usage()`:
`PerfCounters::get_vm_rss() + refresh_interval_memory_growth + process_reserved_memory()`. -/
def process_memory_usage (s : ArbState) : Int :=
  s.vm_rss + s.refresh_interval_memory_growth + process_reserved_memory s

/-- Estimator `GlobalMemoryArbitrator::sys_mem_available()`:
`MemInfo::_s_sys_mem_available - refresh_interval_memory_growth - process_reserved_memory()`. -/
def sys_mem_available (s : ArbState) : Int :=
  s.sys_mem_available_sample - s.refresh_interval_memory_growth - process_reserved_memory s

/-- Modelled from the spec: the body of
`GlobalMemoryArbitrator::sub_thread_reserve_memory` lives in
`global_memory_arbitrator.cpp`, which is not among the provided sources; only
its declaration and doc comment are in the header.  Per the spec it
"determines how much of `bytes` can be satisfied from that thread's own
existing reservation ... and returns the remainder still requiring a fresh
limit check".  The calling thread's unconsumed reservation is passed
explicitly as `thread_reserved`; the satisfied portion is
`min thread_reserved bytes` and the returned remainder is what is left of
`bytes`.  The spec also mentions the consumed portion being "drained ...
from the global ledger"; because the spec separately states that the
admission predicates are "side-effect-free except for logging", that drain
is modelled as the separate ledger operation
`sub_thread_reserve_memory_drain` below, not as part of this remainder
computation. -/
def sub_thread_reserve_memory (thread_reserved : Int) (bytes : Int) : Int :=
  bytes - min thread_reserved bytes

/-- Result of one admission-predicate call: the boolean verdict, the
arbitrator state after the call, and how many diagnostic snapshots
(`print_log_process_usage`) were emitted during the call. -/
structure CheckResult where
  exceeded : Bool
  state : ArbState
  logs : Nat
deriving DecidableEq, Repr

/-- Predicate `GlobalMemoryArbitrator::is_exceed_soft_mem_limit(bytes)`.  `thread_reserved`
is the calling thread's unconsumed reservation consulted through
`sub_thread_reserve_memory`. -/
def is_exceed_soft_mem_limit (s : ArbState) (thread_reserved : Int) (bytes : Int) : CheckResult :=
  if bytes > 0 ∧ sub_thread_reserve_memory thread_reserved bytes ≤ 0 then
    ⟨false, s, 0⟩
  else
    let rt := process_memory_usage s + bytes ≥ s.soft_mem_limit ∨
              sys_mem_available s - bytes < s.sys_mem_available_warning_water_mark
    if rt then ⟨true, s, 1⟩ else ⟨false, s, 0⟩

/-- Predicate `GlobalMemoryArbitrator::is_exceed_hard_mem_limit(bytes)`.  Identical
structure to the soft predicate, against `MemInfo::mem_limit()` and
`MemInfo::sys_mem_available_low_water_mark()`. -/
def is_exceed_hard_mem_limit (s : ArbState) (thread_reserved : Int) (bytes : Int) : CheckResult :=
  if bytes > 0 ∧ sub_thread_reserve_memory thread_reserved bytes ≤ 0 then
    ⟨false, s, 0⟩
  else
    let rt := process_memory_usage s + bytes ≥ s.mem_limit ∨
              sys_mem_available s - bytes < s.sys_mem_available_low_water_mark
    if rt then ⟨true, s, 1⟩ else ⟨false, s, 0⟩

/-- Modelled from the spec: the body of
`GlobalMemoryArbitrator::reserve_process_memory` is in
`global_memory_arbitrator.cpp`, not among the provided sources.  Per the
spec it is "the unconditional counterpart (always increments, used when the
caller has already been cleared to proceed)"; it returns `bool` like its
declaration. -/
def reserve_process_memory (s : ArbState) (bytes : Int) : ArbState × Bool :=
  ({ s with _process_reserved_memory := s._process_reserved_memory + bytes }, true)

/-- Modelled from the spec: the body of
`GlobalMemoryArbitrator::try_reserve_process_memory` is in
`global_memory_arbitrator.cpp`, not among the provided sources.  Per the
spec it "atomically increments ReservedMemory by `bytes` and returns whether
it was accepted"; the rejection policy is only "may fail if it would exceed
a cap" and the spec leaves the concrete cap open, so the cap is an explicit
parameter here: the call fails, leaving the ledger unchanged, when the
incremented ledger would exceed `cap`. -/
def try_reserve_process_memory (s : ArbState) (cap : Int) (bytes : Int) : ArbState × Bool :=
  if s._process_reserved_memory + bytes > cap then (s, false)
  else ({ s with _process_reserved_memory := s._process_reserved_memory + bytes }, true)

/-- Modelled from the spec: the body of
`GlobalMemoryArbitrator::shrink_process_reserved` is in
`global_memory_arbitrator.cpp`, not among the provided sources.  Per the
spec it "atomically decrements, clamped at zero". -/
def shrink_process_reserved (s : ArbState) (bytes : Int) : ArbState :=
  { s with _process_reserved_memory := max (s._process_reserved_memory - bytes) 0 }

/-- Modelled from the spec: the ledger-drain aspect of
`sub_thread_reserve_memory` ("draining it pro-rata from the global ledger"
when a thread's reservation is consumed), whose implementation is in
`global_memory_arbitrator.cpp`, not among the provided sources.  The
consumed portion `min thread_reserved bytes` is removed from the global
ledger through the clamped decrement. -/
def sub_thread_reserve_memory_drain (s : ArbState) (thread_reserved : Int)
    (bytes : Int) : ArbState :=
  shrink_process_reserved s (min thread_reserved bytes)

/-- Notifier `GlobalMemoryArbitrator::notify_cache_adjust_capacity()`: stores `true`
into `cache_adjust_capacity_notify` (the condition-variable wakeup carries
no state of its own). -/
def notify_cache_adjust_capacity (s : ArbState) : ArbState :=
  { s with cache_adjust_capacity_notify := true }

/-- Notifier `GlobalMemoryArbitrator::notify_memtable_memory_refresh()`: stores `true`
into `memtable_memory_refresh_notify`. -/
def notify_memtable_memory_refresh (s : ArbState) : ArbState :=
  { s with memtable_memory_refresh_notify := true }

end DorisMem

namespace DorisCol

/-- Error codes from `doris::ErrorCode`, the values used by `IColumn::append_data_by_selector_impl`. -/
inductive ErrorCode where
  | INTERNAL_ERROR
deriving DecidableEq, Repr

/-- Function `IColumn::append_data_by_selector_impl(res, selector, begin, end)`:
source column `col` (`*this`) and destination `res` are lists of values; the
selector is a list of row indices into `col`.  If the selector is larger
than the column the INTERNAL_ERROR exception is thrown before the
reservation and the insert loop, so `res` is not modified; otherwise the
loop appends `col[selector[i]]` for `i` in `[b, e)` to `res`. -/
def append_data_by_selector_impl {α : Type} [Inhabited α] (col : List α) (res : List α)
    (selector : List Nat) (b : Nat) (e : Nat) : Except ErrorCode (List α) :=
  if col.length < selector.length then
    .error .INTERNAL_ERROR
  else
    .ok (res ++ (List.range' b (e - b)).map fun i => col.getD (selector.getD i 0) default)

/-- The two-argument overload of `append_data_by_selector_impl`: full
selector range. -/
def append_data_by_selector_impl_all {α : Type} [Inhabited α] (col : List α) (res : List α)
    (selector : List Nat) : Except ErrorCode (List α) :=
  append_data_by_selector_impl col res selector 0 selector.length

end DorisCol

namespace DorisMem

/-- Concrete arbitrator state used by scenario theorems and witnesses:
RSS sample 1000, system-available sample 5000, refresh-interval growth 50,
reserved 20, limits 500 (hard) and 400 (soft), water marks 0, so the
process-usage estimate (1070) exceeds both limits while the availability
conditions do not trigger. -/
def sampleState : ArbState :=
  { vm_rss := 1000
    sys_mem_available_sample := 5000
    refresh_interval_memory_growth := 50
    _process_reserved_memory := 20
    cache_adjust_capacity_notify := false
    memtable_memory_refresh_notify := false
    mem_limit := 500
    soft_mem_limit := 400
    sys_mem_available_low_water_mark := 0
    sys_mem_available_warning_water_mark := 0 }

end DorisMem

open DorisMem DorisCol

/-- Claim C1, counterexample: the claim quantifies over `0 <= bytes <= R`,
but at `bytes = 0` both predicates skip the reservation check (`bytes > 0`
guard) and can return true even though the thread holds an unconsumed
reservation `R = 5`. -/
theorem C1_counterexample :
    (0 : Int) ≤ 0 ∧ (0 : Int) ≤ 5 ∧
    (is_exceed_hard_mem_limit sampleState 5 0).exceeded = true ∧
    (is_exceed_soft_mem_limit sampleState 5 0).exceeded = true := by
  decide

/-- Claim C1, amended: for every state, reservation `R` and request with
`0 < bytes ≤ R` (the request strictly positive and fully covered by the
still-unconsumed reservation), both `is_exceed_soft_mem_limit` and
`is_exceed_hard_mem_limit` return false regardless of the sampled usage and
availability values. -/
theorem C1_amended_reservation_admits (s : ArbState) (R bytes : Int)
    (h1 : 0 < bytes) (h2 : bytes ≤ R) :
    (is_exceed_soft_mem_limit s R bytes).exceeded = false ∧
    (is_exceed_hard_mem_limit s R bytes).exceeded = false := by
  have hg : bytes > 0 ∧ sub_thread_reserve_memory R bytes ≤ 0 := by
    refine ⟨h1, ?_⟩
    unfold sub_thread_reserve_memory
    omega
  unfold is_exceed_soft_mem_limit is_exceed_hard_mem_limit
  rw [if_pos hg, if_pos hg]
  exact ⟨rfl, rfl⟩

/-- Witness for C1 amended at the concrete state: request 3 covered by
reservation 5 is admitted by both predicates even though the sampled state
exceeds both limits. -/
theorem C1_amended_reservation_admits_witness :
    (0 : Int) < 3 ∧ (3 : Int) ≤ 5 ∧
    ((is_exceed_soft_mem_limit sampleState 5 3).exceeded = false ∧
     (is_exceed_hard_mem_limit sampleState 5 3).exceeded = false) :=
  ⟨by decide, by decide,
   C1_amended_reservation_admits sampleState 5 3 (by decide) (by decide)⟩

/-- Claim C2: both admission predicates leave the whole arbitrator state
(in particular `_process_reserved_memory` and
`refresh_interval_memory_growth`) unchanged, and their only side effect is
emitting exactly one diagnostic snapshot, which happens exactly when the
predicate returns true. -/
theorem C2_predicates_frame (s : ArbState) (R bytes : Int) :
    (is_exceed_soft_mem_limit s R bytes).state = s ∧
    (is_exceed_soft_mem_limit s R bytes).logs =
      (if (is_exceed_soft_mem_limit s R bytes).exceeded then 1 else 0) ∧
    (is_exceed_hard_mem_limit s R bytes).state = s ∧
    (is_exceed_hard_mem_limit s R bytes).logs =
      (if (is_exceed_hard_mem_limit s R bytes).exceeded then 1 else 0) := by
  unfold is_exceed_soft_mem_limit is_exceed_hard_mem_limit
  dsimp only
  refine ⟨?_, ?_, ?_, ?_⟩ <;> (split <;> first | rfl | (split <;> rfl))

/-- Claim C3: when the request is not covered by an existing thread
reservation (no early return), `is_exceed_hard_mem_limit(bytes)` is true
exactly when `process_memory_usage() + bytes >= mem_limit` or
`sys_mem_available() - bytes < low_water_mark`; in particular at
`bytes = 0` with the availability condition not triggered, it is true
exactly when `process_memory_usage() >= mem_limit` (boundary at `>=`). -/
theorem C3_hard_limit_iff (s : ArbState) (R bytes : Int)
    (h : ¬ (bytes > 0 ∧ sub_thread_reserve_memory R bytes ≤ 0)) :
    ((is_exceed_hard_mem_limit s R bytes).exceeded = true ↔
      (process_memory_usage s + bytes ≥ s.mem_limit ∨
       sys_mem_available s - bytes < s.sys_mem_available_low_water_mark)) ∧
    (bytes = 0 → ¬ sys_mem_available s < s.sys_mem_available_low_water_mark →
      ((is_exceed_hard_mem_limit s R bytes).exceeded = true ↔
        process_memory_usage s ≥ s.mem_limit)) := by
  unfold is_exceed_hard_mem_limit
  rw [if_neg h]
  dsimp only
  constructor
  · split <;> simp_all
  · intro h0 havail
    subst h0
    split <;> simp_all
    omega

/-- Witness for C3 at the concrete state with `bytes = 0`, reservation 5:
the process-usage estimate 1070 is at least the hard limit 500, so the
predicate returns true. -/
theorem C3_hard_limit_iff_witness :
    (¬ ((0 : Int) > 0 ∧ sub_thread_reserve_memory 5 0 ≤ 0)) ∧
    (((is_exceed_hard_mem_limit sampleState 5 0).exceeded = true ↔
       (process_memory_usage sampleState + 0 ≥ sampleState.mem_limit ∨
        sys_mem_available sampleState - 0 <
          sampleState.sys_mem_available_low_water_mark)) ∧
     ((0 : Int) = 0 →
       ¬ sys_mem_available sampleState <
           sampleState.sys_mem_available_low_water_mark →
       ((is_exceed_hard_mem_limit sampleState 5 0).exceeded = true ↔
         process_memory_usage sampleState ≥ sampleState.mem_limit))) :=
  ⟨by decide, C3_hard_limit_iff sampleState 5 0 (by decide)⟩

/-- Claim C4: `process_memory_usage()` equals the RSS sample plus the
refresh-interval growth plus the reserved memory, and on the scenario state
(RSS 1000, growth 50, reserved 20) it returns 1070. -/
theorem C4_process_memory_usage_formula (s : ArbState) :
    process_memory_usage s =
      s.vm_rss + s.refresh_interval_memory_growth + s._process_reserved_memory ∧
    process_memory_usage sampleState = 1070 :=
  ⟨rfl, by decide⟩

/-- Claim C5: `sys_mem_available()` equals the system-available sample minus
the refresh-interval growth minus the reserved memory, and on the scenario
state (sample 5000, growth 50, reserved 20) it returns 4930. -/
theorem C5_sys_mem_available_formula (s : ArbState) :
    sys_mem_available s =
      s.sys_mem_available_sample - s.refresh_interval_memory_growth -
        s._process_reserved_memory ∧
    sys_mem_available sampleState = 4930 :=
  ⟨rfl, by decide⟩

/-- Claim C6: every ledger mutation (`reserve_process_memory`,
`try_reserve_process_memory`, `shrink_process_reserved`, the ledger drain of
`sub_thread_reserve_memory`) preserves `_process_reserved_memory ≥ 0` for
non-negative request sizes, and `shrink_process_reserved` clamps at zero
even when `bytes` exceeds the current ledger value. -/
theorem C6_ledger_never_negative (s : ArbState) (cap R bytes : Int)
    (hs : 0 ≤ process_reserved_memory s) (hb : 0 ≤ bytes) :
    0 ≤ process_reserved_memory (reserve_process_memory s bytes).1 ∧
    0 ≤ process_reserved_memory (try_reserve_process_memory s cap bytes).1 ∧
    0 ≤ process_reserved_memory (shrink_process_reserved s bytes) ∧
    0 ≤ process_reserved_memory (sub_thread_reserve_memory_drain s R bytes) ∧
    (process_reserved_memory s < bytes →
      process_reserved_memory (shrink_process_reserved s bytes) = 0) := by
  simp only [process_reserved_memory, reserve_process_memory, try_reserve_process_memory,
    shrink_process_reserved, sub_thread_reserve_memory_drain] at *
  refine ⟨?_, ?_, ?_, ?_, ?_⟩
  · dsimp only
    omega
  · split <;> dsimp only <;> omega
  · omega
  · omega
  · intro hlt
    omega

/-- Witness for C6 at the concrete state (ledger 20) with cap 100,
thread reservation 5 and request 50, which exceeds the current ledger
value so the shrink clamp is exercised. -/
theorem C6_ledger_never_negative_witness :
    0 ≤ process_reserved_memory sampleState ∧ (0 : Int) ≤ 50 ∧
    (0 ≤ process_reserved_memory (reserve_process_memory sampleState 50).1 ∧
     0 ≤ process_reserved_memory (try_reserve_process_memory sampleState 100 50).1 ∧
     0 ≤ process_reserved_memory (shrink_process_reserved sampleState 50) ∧
     0 ≤ process_reserved_memory (sub_thread_reserve_memory_drain sampleState 5 50) ∧
     (process_reserved_memory sampleState < 50 →
       process_reserved_memory (shrink_process_reserved sampleState 50) = 0)) :=
  ⟨by decide, by decide,
   C6_ledger_never_negative sampleState 100 5 50 (by decide) (by decide)⟩

/-- Claim C7: for every non-negative `bytes`, `reserve_process_memory(bytes)`
followed immediately by `shrink_process_reserved(bytes)` leaves
`process_reserved_memory()` at its value before the pair of calls, on any
state satisfying the ledger's never-negative invariant. -/
theorem C7_reserve_shrink_round_trip (s : ArbState) (bytes : Int)
    (hb : 0 ≤ bytes) (hs : 0 ≤ process_reserved_memory s) :
    process_reserved_memory
      (shrink_process_reserved (reserve_process_memory s bytes).1 bytes) =
    process_reserved_memory s := by
  unfold process_reserved_memory reserve_process_memory shrink_process_reserved at *
  simp
  omega

/-- Witness for C7 at the concrete state (ledger 20), reserving and then
shrinking 7 bytes. -/
theorem C7_reserve_shrink_round_trip_witness :
    (0 : Int) ≤ 7 ∧ 0 ≤ process_reserved_memory sampleState ∧
    process_reserved_memory
      (shrink_process_reserved (reserve_process_memory sampleState 7).1 7) =
    process_reserved_memory sampleState :=
  ⟨by decide, by decide,
   C7_reserve_shrink_round_trip sampleState 7 (by decide) (by decide)⟩

/-- Claim C8: `notify_cache_adjust_capacity()` only stores `true` into
`cache_adjust_capacity_notify`, so consecutive calls coalesce: two calls
leave the notifier state exactly as one call does (idempotence), the flag
is set after a call, and no other component of the state changes. -/
theorem C8_notify_coalesces (s : ArbState) :
    notify_cache_adjust_capacity (notify_cache_adjust_capacity s) =
      notify_cache_adjust_capacity s ∧
    (notify_cache_adjust_capacity s).cache_adjust_capacity_notify = true ∧
    (notify_cache_adjust_capacity s) =
      { s with cache_adjust_capacity_notify := true } :=
  ⟨rfl, rfl, rfl⟩

/-- Claim C9: with `bytes ≤ 0` (including the default argument 0) the
thread-reservation early return is skipped, and the verdict of each
predicate is exactly the limit/water-mark condition, independent of the
calling thread's unconsumed reservation `R`. -/
theorem C9_nonpositive_bytes_skip_reservation (s : ArbState) (R bytes : Int)
    (hb : bytes ≤ 0) :
    ((is_exceed_soft_mem_limit s R bytes).exceeded = true ↔
      (process_memory_usage s + bytes ≥ s.soft_mem_limit ∨
       sys_mem_available s - bytes < s.sys_mem_available_warning_water_mark)) ∧
    ((is_exceed_hard_mem_limit s R bytes).exceeded = true ↔
      (process_memory_usage s + bytes ≥ s.mem_limit ∨
       sys_mem_available s - bytes < s.sys_mem_available_low_water_mark)) := by
  have hg : ¬ (bytes > 0 ∧ sub_thread_reserve_memory R bytes ≤ 0) := by
    intro hc
    omega
  unfold is_exceed_soft_mem_limit is_exceed_hard_mem_limit
  rw [if_neg hg, if_neg hg]
  dsimp only
  constructor <;> (split <;> simp_all)

/-- Witness for C9 at the concrete state with reservation 5 and the default
argument `bytes = 0`: both predicates report exceedance because the usage
estimate 1070 is above both limits. -/
theorem C9_nonpositive_bytes_skip_reservation_witness :
    (0 : Int) ≤ 0 ∧
    (((is_exceed_soft_mem_limit sampleState 5 0).exceeded = true ↔
       (process_memory_usage sampleState + 0 ≥ sampleState.soft_mem_limit ∨
        sys_mem_available sampleState - 0 <
          sampleState.sys_mem_available_warning_water_mark)) ∧
     ((is_exceed_hard_mem_limit sampleState 5 0).exceeded = true ↔
       (process_memory_usage sampleState + 0 ≥ sampleState.mem_limit ∨
        sys_mem_available sampleState - 0 <
          sampleState.sys_mem_available_low_water_mark))) :=
  ⟨by decide, C9_nonpositive_bytes_skip_reservation sampleState 5 0 (by decide)⟩

/-- Claim C10: if the selector is larger than the source column,
`append_data_by_selector_impl` raises INTERNAL_ERROR before reserving or
inserting anything, so the destination is not modified; otherwise no
exception is raised and exactly `e - b` values are appended to the
destination. -/
theorem C10_selector_size_check {α : Type} [Inhabited α] (col res : List α)
    (selector : List Nat) (b e : Nat) :
    (col.length < selector.length →
      append_data_by_selector_impl col res selector b e =
        .error .INTERNAL_ERROR) ∧
    (¬ col.length < selector.length →
      ∃ appended : List α,
        append_data_by_selector_impl col res selector b e =
          .ok (res ++ appended) ∧
        appended.length = e - b) := by
  constructor
  · intro h
    unfold append_data_by_selector_impl
    rw [if_pos h]
  · intro h
    unfold append_data_by_selector_impl
    rw [if_neg h]
    exact ⟨_, rfl, by simp⟩

/-- Witness for C10: a three-row column with a two-entry selector appends
exactly two values; a one-row column with a two-entry selector raises
INTERNAL_ERROR. -/
theorem C10_selector_size_check_witness :
    (¬ ([10, 20, 30] : List Int).length < ([2, 0] : List Nat).length) ∧
    (∃ appended : List Int,
      append_data_by_selector_impl [10, 20, 30] [1] [2, 0] 0 2 =
        .ok ([1] ++ appended) ∧
      appended.length = 2 - 0) ∧
    ([10] : List Int).length < ([0, 0] : List Nat).length ∧
    append_data_by_selector_impl ([10] : List Int) [1] [0, 0] 0 2 =
      .error .INTERNAL_ERROR :=
  ⟨by decide,
   (C10_selector_size_check [10, 20, 30] [1] [2, 0] 0 2).2 (by decide),
   by decide,
   (C10_selector_size_check [10] [1] [0, 0] 0 2).1 (by decide)⟩
